import Mathlib

/-!
Verification development for the TallySync Manager browser client
("Resilient Session & Event Client"): the credential store, the
bootstrap/auto-heal protocol, the authenticated request executor
(`apiFetch` / `apiFetchWithCount` in `src/assets/js/api.js`), and the
SSE event-stream connector (`connectSSE`).

The JavaScript source is shallowly embedded: every I/O boundary
(`fetch`, `EventSource`, timers, `localStorage`) is made an explicit
parameter or an explicit state component, and each JS function becomes a
pure Lean function over those.  JS string truthiness (`""` is falsy) is
modelled by comparison with `""`; `localStorage.getItem` returning
`null` is modelled by `Option String`.
-/

namespace TallySync

/-- Header lists model JS header objects: ordered key/value pairs. -/
abbrev Headers := List (String × String)

/-- JS object-spread assignment of one key: a later write to an existing
key overwrites it in place, a new key is appended (insertion order). -/
def hInsert (m : Headers) (k v : String) : Headers :=
  if m.any (fun p => p.1 = k) then
    m.map (fun p => if p.1 = k then (k, v) else p)
  else m ++ [(k, v)]

/-- Spread `{ ...base, ...extra }` for header objects. -/
def hMerge (base extra : Headers) : Headers :=
  extra.foldl (fun m p => hInsert m p.1 p.2) base

/-- JS `a || b` for a nullable string `a` (both `null` and `""` are falsy). -/
def jsOr (a : Option String) (b : String) : String :=
  match a with
  | none => b
  | some s => if s = "" then b else s

/-- JSON body of a response, as the fields the client reads.  A missing
or JSON-`null` field reads as the falsy `""`.  `data` stands for the
rest of the payload, opaque to the client core. -/
structure Body where
  detail : String := ""
  message : String := ""
  api_key : String := ""
  data : String := ""
deriving Repr, DecidableEq

/-- An HTTP response as observed by the client: status code, the JSON
body (`none` when `response.json()` would throw, i.e. the body does not
parse), and the raw `X-Total-Count` header (`none` when absent). -/
structure Response where
  status : Nat
  jsonBody : Option Body := none
  totalCountHeader : Option String := none
deriving Repr, DecidableEq

/-- JS `response.ok`: status in the inclusive range 200–299. -/
def respOk (r : Response) : Bool :=
  decide (200 ≤ r.status) && decide (r.status ≤ 299)

/-- Error message computed at `api.js` lines 35–41 (and 66–69): start
from `"HTTP <status>"`, then `body.detail || body.message || errorMsg`
if the body parses. -/
def errMsg (r : Response) : String :=
  match r.jsonBody with
  | none => "HTTP " ++ toString r.status
  | some b =>
      if b.detail ≠ "" then b.detail
      else if b.message ≠ "" then b.message
      else "HTTP " ++ toString r.status

/-- The `options` argument of `apiFetch` / `apiFetchWithCount`, with the
fields the executor inspects or forwards.  `headers`, `method` and
`body` are the properties the repository's callers ever set. -/
structure FetchOptions where
  headers : Option Headers := none
  method : Option String := none
  body : Option String := none
deriving Repr, DecidableEq

/-- The headers object built at `api.js` line 17:
`{ 'Content-Type': 'application/json', 'X-API-Key': apiKey, ...(options.headers || {}) }`. -/
def defaultHeaders (apiKey : String) (opts : FetchOptions) : Headers :=
  hMerge [("Content-Type", "application/json"), ("X-API-Key", apiKey)]
    (opts.headers.getD [])

/-- Headers actually passed to `fetch` by `fetch(url, { ...defaults, ...options })`:
when `options` carries its own `headers` property, the later spread
overwrites the `defaults.headers` object wholesale; otherwise the
defaults (with the merged caller headers) survive. -/
def sentHeaders (apiKey : String) (opts : FetchOptions) : Headers :=
  match opts.headers with
  | none => defaultHeaders apiKey opts
  | some hs => hs

/-- One HTTP request as issued by the executor: the path and the request
init forwarded to `fetch`. -/
structure Request where
  path : String
  method : Option String
  reqBody : Option String
  headers : Headers
deriving Repr, DecidableEq

/-- Result of one executor call.  `httpError s m` is the
`throw new Error(errorMsg)` taken on a non-2xx response of status `s`
with computed message `m` (the spec's `AuthError` when `s = 401` after
the heal attempt, `ServerError{status,message}` otherwise);
`networkError` is a rejected `fetch`; `parseError` is `response.json()`
throwing on a 2xx response. -/
inductive ApiResult where
  | ok (payload : Option Body)
  | httpError (status : Nat) (msg : String)
  | networkError
  | parseError
deriving Repr, DecidableEq

/-- The environment an `apiFetch` call runs against: the outcome of the
first `fetch` of the path, of the `GET /api/info` heal fetch (when the
executor makes it), and of the retried `fetch` of the path (when made).
`none` means the fetch rejects (network error or timeout). -/
structure ApiEnv where
  firstResp : Option Response := none
  infoResp : Option Response := none
  retryResp : Option Response := none
deriving Repr, DecidableEq

/-- Tail of `apiFetch` after the heal block (`api.js` lines 35–46):
throw on non-ok, `null` payload on 204, otherwise the parsed body. -/
def finishResponse (r : Response) : ApiResult :=
  if respOk r = false then .httpError r.status (errMsg r)
  else if r.status = 204 then .ok none
  else
    match r.jsonBody with
    | none => .parseError
    | some b => .ok (some b)

/-- The heal block at `api.js` lines 23–32: the key the executor stores
and retries with, when `/api/info` responds ok, its body parses, and
`info.api_key` is truthy; `none` in every other case (the `catch (_)`
and the failed guards all fall through to the normal error path). -/
def healKey (env : ApiEnv) : Option String :=
  match env.infoResp with
  | none => none
  | some ir =>
      if respOk ir then
        match ir.jsonBody with
        | none => none
        | some ib => if ib.api_key ≠ "" then some ib.api_key else none
      else none

/-- Everything observable about one `apiFetch` call: the requests issued
to the path (in order, with the headers each carried), the stored API
key after the call, and the settled result. -/
structure ApiOutcome where
  requests : List Request
  stored : Option String
  result : ApiResult
deriving Repr, DecidableEq

/-- Shallow embedding of `apiFetch(path, options, _retry = true)`
(`api.js` lines 13–47).  `stored` is `localStorage.getItem('tallysync_api_key')`.
On a 401 first response the heal block runs; if it yields a key the key
is stored and the call re-runs once with `_retry = false` (inlined here:
the second attempt never heals again). -/
def apiFetch (path : String) (opts : FetchOptions) (stored : Option String)
    (env : ApiEnv) : ApiOutcome :=
  let key := stored.getD ""
  let req1 : Request := ⟨path, opts.method, opts.body, sentHeaders key opts⟩
  match env.firstResp with
  | none => ⟨[req1], stored, .networkError⟩
  | some r1 =>
      if r1.status = 401 then
        match healKey env with
        | some k =>
            let req2 : Request := ⟨path, opts.method, opts.body, sentHeaders k opts⟩
            match env.retryResp with
            | none => ⟨[req1, req2], some k, .networkError⟩
            | some r2 => ⟨[req1, req2], some k, finishResponse r2⟩
        | none => ⟨[req1], stored, finishResponse r1⟩
      else ⟨[req1], stored, finishResponse r1⟩

/-- JS `String.prototype.trim()`: strip whitespace from both ends
(computed on the character list so that it evaluates in the kernel). -/
def jsTrim (s : String) : String :=
  ⟨((s.toList.dropWhile Char.isWhitespace).reverse.dropWhile Char.isWhitespace).reverse⟩

/-- JS `parseInt(s, 10)`: skip leading whitespace, optional sign, then
the longest digit prefix; `none` models `NaN`. -/
def jsParseInt (s : String) : Option Int :=
  let t := jsTrim s
  let signAndRest : Int × List Char :=
    match t.toList with
    | '-' :: cs => (-1, cs)
    | '+' :: cs => (1, cs)
    | cs => (1, cs)
  let ds := signAndRest.2.takeWhile Char.isDigit
  if ds.isEmpty then none
  else some (signAndRest.1 * (ds.foldl (fun n c => n * 10 + (c.toNat - '0'.toNat)) 0 : Nat))

/-- Result of `apiFetchWithCount`: on success the payload together with
`parseInt(headers.get('X-Total-Count') || '0', 10)` (`none` = `NaN`). -/
inductive CountResult where
  | ok (data : Option Body) (total : Option Int)
  | httpError (status : Nat) (msg : String)
  | networkError
  | parseError
deriving Repr, DecidableEq

/-- Shallow embedding of `apiFetchWithCount(path, options)` (`api.js`
lines 59–74).  It performs a single `fetch` — the source contains no
401 heal block and no retry — and additionally reads `X-Total-Count`. -/
def apiFetchWithCount (path : String) (opts : FetchOptions) (stored : Option String)
    (resp : Option Response) : List Request × CountResult :=
  let key := stored.getD ""
  let req : Request := ⟨path, opts.method, opts.body, sentHeaders key opts⟩
  match resp with
  | none => ([req], .networkError)
  | some r =>
      if respOk r = false then ([req], .httpError r.status (errMsg r))
      else if r.status = 204 then
        ([req], .ok none (jsParseInt (jsOr r.totalCountHeader "0")))
      else
        match r.jsonBody with
        | none => ([req], .parseError)
        | some b => ([req], .ok (some b) (jsParseInt (jsOr r.totalCountHeader "0")))

/-- Shallow embedding of the bootstrap IIFE (`src/unnamed/part_000`
lines 14–25): fetch `/api/info` with a 3 s timeout; on an ok response
whose body parses, if `info.api_key` is truthy and differs from
`localStorage.getItem('tallysync_api_key')`, store it and
`location.reload()`.  Returns the stored key afterwards and whether a
reload (session restart) was signalled.  Every failure is swallowed by
the `catch` / the guards, leaving the store untouched. -/
def bootstrap (stored : Option String) (resp : Option Response) :
    Option String × Bool :=
  match resp with
  | none => (stored, false)
  | some r =>
      if respOk r then
        match r.jsonBody with
        | none => (stored, false)
        | some b =>
            if b.api_key ≠ "" ∧ some b.api_key ≠ stored then
              (some b.api_key, true)
            else (stored, false)
      else (stored, false)

/-- The persisted client credential: `localStorage` keys
`tallysync_api` (backend address) and `tallysync_api_key`.  `none`
models an absent key. -/
structure Store where
  api : Option String := none
  apiKey : Option String := none
deriving Repr, DecidableEq

/-- The settings page normalization `replace` with the trailing-slash
regexp: drop one trailing slash if present. -/
def stripTrailingSlash (s : String) : String :=
  match s.toList.reverse with
  | '/' :: rest => ⟨rest.reverse⟩
  | _ => s

/-- Shallow embedding of `saveConnection()` (settings page,
`src/unnamed/part_004`): trim the address field and strip one trailing
slash, trim the key field; reject (toast and return) if either is then
empty, otherwise persist both.  Returns the store and whether the save
happened (and a reload was scheduled). -/
def saveConnection (st : Store) (urlInput keyInput : String) : Store × Bool :=
  let url := stripTrailingSlash (jsTrim urlInput)
  let key := jsTrim keyInput
  if url = "" then (st, false)
  else if key = "" then (st, false)
  else ({ api := some url, apiKey := some key }, true)

/-- Shallow embedding of the synchronous reads plus the auto-save branch
of `loadAppInfo()` (settings page, `src/unnamed/part_004`): the backend
URL field shows `getItem('tallysync_api') || window.TALLYSYNC_API ||
'http://localhost:8001'`, the key field shows the stored key; `info` is
the parsed result of `Info.get()` (`none` when that call threw).  When
no key was stored and the info body carries a truthy `api_key`, the key
is auto-saved and the normalized current URL persisted.  Returns the
displayed (address, key) pair and the store afterwards. -/
def loadAppInfo (st : Store) (w : String) (info : Option Body) :
    (String × String) × Store :=
  let urlField := jsOr st.api (jsOr (some w) "http://localhost:8001")
  let storedKey := jsOr st.apiKey ""
  match info with
  | none => ((urlField, storedKey), st)
  | some b =>
      if storedKey = "" ∧ b.api_key ≠ "" then
        let currentUrl := stripTrailingSlash (jsTrim urlField)
        (((urlField, b.api_key)),
          { st with apiKey := some b.api_key,
                    api := if currentUrl ≠ "" then some currentUrl else st.api })
      else ((urlField, storedKey), st)

/-! ### The SSE event-stream connector (`src/unnamed/part_003`)

The connector's module state is the pair of variables `_sse` and
`_retryTimer`, plus the set of actually open `EventSource` objects and
of actually pending timers (which the two variables only point into —
`_retryTimer` can go stale), the company scope (`CompanyStore`), and
the visible sync status.  Each JS entry point (initial load, the
`company:changed` listener, the `connected` / error handlers, a timer
firing) becomes one step of a deterministic transition function. -/

/-- The constant `RETRY_DELAY_MS` in `src/unnamed/part_003` line 10. -/
def RETRY_DELAY_MS : Nat := 5000

/-- One `EventSource` object: an identity and the scope its URL was
built with (`?company_id=<id>` or unscoped). -/
structure SSEConn where
  id : Nat
  scope : Option Nat
deriving Repr, DecidableEq

/-- One scheduled `setTimeout`: an identity and its delay in ms. -/
structure SSETimer where
  id : Nat
  delay : Nat
deriving Repr, DecidableEq

/-- Connector state: `openConns` are the `EventSource` objects not yet
closed; `sseVar` is the `_sse` variable; `pending` are the timers
scheduled and neither fired nor cleared; `retryVar` is the `_retryTimer`
variable (the id last assigned, possibly stale); `scope` is
`CompanyStore.get()`; `statusState`/`statusText` the visible sync badge;
`nextId` a fresh-identity counter. -/
structure SSEState where
  openConns : List SSEConn
  sseVar : Option SSEConn
  pending : List SSETimer
  retryVar : Option Nat
  scope : Option Nat
  statusState : String
  statusText : String
  nextId : Nat
deriving Repr, DecidableEq

/-- Shallow embedding of `connectSSE()` (`src/unnamed/part_003` lines 25–68): close and null
`_sse` if set, read the scope, show `Connecting...`, open a new
`EventSource` for that scope.  Note the function does not touch
`_retryTimer` or any pending timer. -/
def connectSSE (s : SSEState) : SSEState :=
  let s1 :=
    match s.sseVar with
    | some v =>
        { s with openConns := s.openConns.filter (fun c => c.id ≠ v.id),
                 sseVar := none }
    | none => s
  let conn : SSEConn := ⟨s1.nextId, s1.scope⟩
  { s1 with statusState := "syncing", statusText := "Connecting...",
            openConns := s1.openConns ++ [conn],
            sseVar := some conn,
            nextId := s1.nextId + 1 }

/-- The `connected` listener: show `Live` and `clearTimeout(_retryTimer)`
(a no-op when `_retryTimer` is null or stale). -/
def onConnected (s : SSEState) : SSEState :=
  { s with statusState := "", statusText := "Live",
           pending :=
             match s.retryVar with
             | some t => s.pending.filter (fun tm => tm.id ≠ t)
             | none => s.pending }

/-- The `onerror` handler (`src/unnamed/part_003` lines 61–67): show
`Disconnected`, close and null `_sse`, and arm one fresh retry timer of
`RETRY_DELAY_MS` which will run `connectSSE`. -/
def onError (s : SSEState) : SSEState :=
  let s1 := { s with statusState := "error", statusText := "Disconnected" }
  let s2 :=
    match s1.sseVar with
    | some v =>
        { s1 with openConns := s1.openConns.filter (fun c => c.id ≠ v.id),
                  sseVar := none }
    | none => s1
  let t : SSETimer := ⟨s2.nextId, RETRY_DELAY_MS⟩
  { s2 with pending := s2.pending ++ [t],
            retryVar := some t.id,
            nextId := s2.nextId + 1 }

/-- The connector's externally triggered steps.  Handler events carry
the `EventSource` they fire on: a closed `EventSource` delivers nothing,
so the step functions guard on the connection being the live `_sse`
(under the at-most-one-open invariant every open connection is `_sse`). -/
inductive SSEEvent where
  | connect
  | companyChanged (newScope : Option Nat)
  | connected (c : SSEConn)
  | transportError (c : SSEConn)
  | timerFire (t : SSETimer)
deriving Repr, DecidableEq

/-- One scheduler step of the connector. `connect` is the
`DOMContentLoaded` start; `companyChanged` is `CompanyStore.set`
followed by the `company:changed` listener calling `connectSSE()`; a
timer firing leaves the pending set and runs its callback `connectSSE`. -/
def sseStep (s : SSEState) (e : SSEEvent) : SSEState :=
  match e with
  | .connect => connectSSE s
  | .companyChanged sc => connectSSE { s with scope := sc }
  | .connected c => if s.sseVar = some c then onConnected s else s
  | .transportError c => if s.sseVar = some c then onError s else s
  | .timerFire t =>
      if s.pending.contains t then
        connectSSE { s with pending := s.pending.filter (fun tm => tm.id ≠ t.id) }
      else s

/-- Client state at page load, before `DOMContentLoaded` fires:
no stream, no timer, badge as rendered by the layout. -/
def sseInit (scope0 : Option Nat) : SSEState :=
  { openConns := [], sseVar := none, pending := [], retryVar := none,
    scope := scope0, statusState := "syncing", statusText := "Connecting…",
    nextId := 0 }

/-- Run the connector from page load through a sequence of events. -/
def sseRun (scope0 : Option Nat) (es : List SSEEvent) : SSEState :=
  es.foldl sseStep (sseInit scope0)

/-- Environment for the C2 counterexample: first response 401, info
returns the very key already stored (so no *new* key), retry answers 200. -/
def envSameKey : ApiEnv :=
  { firstResp := some ⟨401, none, none⟩,
    infoResp := some ⟨200, some { api_key := "old1" }, none⟩,
    retryResp := some ⟨200, some { data := "companies" }, none⟩ }

/-- Environment in which the heal succeeds, for comparing the two
executors: first response 401, info supplies `"new99"`, retried call
succeeds with a body and an `X-Total-Count` header. -/
def envC4 : ApiEnv :=
  { firstResp := some ⟨401, some { detail := "Invalid API key" }, none⟩,
    infoResp := some ⟨200, some { api_key := "new99" }, none⟩,
    retryResp := some ⟨200, some { data := "orders" }, some "42"⟩ }

/-- The connector's structural invariant: the open `EventSource`
objects are exactly the one `_sse` points to (or none). -/
def connWellFormed (s : SSEState) : Prop :=
  s.openConns = (match s.sseVar with | some v => [v] | none => [])

/-- Read one header from a header object. -/
def hGet (m : Headers) (k : String) : Option String :=
  (m.find? (fun p => p.1 == k)).map (fun p => p.2)

/-- A heal environment: first response 401, `/api/info` answers 200 with
a key different from the stored `"old1"`, the retried call answers 200. -/
def envHeal : ApiEnv :=
  { firstResp := some ⟨401, none, none⟩,
    infoResp := some ⟨200, some { api_key := "new99" }, none⟩,
    retryResp := some ⟨200, some { data := "d" }, none⟩ }

/-! ## Theorems -/

/-- C1: the claim as stated is false: when the caller passes its own
`headers` object, the spread `{ ...defaults, ...options }` replaces the
defaults wholesale, so the retried call after a successful heal carries
no `X-API-Key` header at all — even though the first response was 401
and Bootstrap supplied the new key `"new99"` differing from the stored
`"old1"`. -/
theorem C1_counterexample :
    healKey envHeal = some "new99"
    ∧ "new99" ≠ "old1"
    ∧ (apiFetch "/api/companies" { headers := some [("Accept", "text/csv")] }
        (some "old1") envHeal).requests.map (fun r => hGet r.headers "X-API-Key")
      = [none, none]
    ∧ (apiFetch "/api/companies" { headers := some [("Accept", "text/csv")] }
        (some "old1") envHeal).requests.length = 2 := by
  decide

/-- C1 (amended): for every request — whatever its options — whose
first response is 401 and for which the info call supplies a key `k`,
the executor stores `k` and retries the original call (same path,
method and body) exactly once — never a third time — and the retried
call's outcome is final, computed from the second response alone;
additionally, whenever the caller supplied no `headers` object of its
own, the retried call carries `X-API-Key: k`. -/
theorem C1_retry_once_with_new_key (path : String) (opts : FetchOptions)
    (stored : Option String) (env : ApiEnv) (r1 : Response) (k : String)
    (h1 : env.firstResp = some r1) (h2 : r1.status = 401)
    (h3 : healKey env = some k) (_h4 : k ≠ stored.getD "") :
    (apiFetch path opts stored env).requests =
      [⟨path, opts.method, opts.body, sentHeaders (stored.getD "") opts⟩,
       ⟨path, opts.method, opts.body, sentHeaders k opts⟩]
    ∧ (apiFetch path opts stored env).stored = some k
    ∧ (apiFetch path opts stored env).result =
        (match env.retryResp with
         | none => ApiResult.networkError
         | some r2 => finishResponse r2)
    ∧ (opts.headers = none → hGet (sentHeaders k opts) "X-API-Key" = some k) := by
  unfold apiFetch
  rw [h1]
  simp only [h2, if_pos rfl, h3]
  refine ⟨?_, ?_, ?_, ?_⟩
  · cases env.retryResp <;> rfl
  · cases env.retryResp <;> rfl
  · cases env.retryResp <;> rfl
  · intro h5
    simp [sentHeaders, h5, defaultHeaders, hMerge, hGet, List.find?]

/-- Witness for C1: the spec's own scenario — stored `"old1"`, GET
`/api/companies` answers 401, info returns `"new99"`, the retried call
carries `X-API-Key: new99` and its 200 outcome is final. -/
theorem C1_retry_once_with_new_key_witness :
    hGet (sentHeaders "new99" {}) "X-API-Key" = some "new99"
    ∧ (apiFetch "/api/companies" {} (some "old1") envHeal).result =
        (match envHeal.retryResp with
         | none => ApiResult.networkError
         | some r2 => finishResponse r2) :=
  ⟨(C1_retry_once_with_new_key "/api/companies" {} (some "old1") envHeal
      ⟨401, none, none⟩ "new99" rfl rfl (by decide) (by decide)).2.2.2 rfl,
   (C1_retry_once_with_new_key "/api/companies" {} (some "old1") envHeal
      ⟨401, none, none⟩ "new99" rfl rfl (by decide) (by decide)).2.2.1⟩

/-- C2: the claim as stated is false: the heal block tests only that
`info.api_key` is truthy, not that it differs from the stored key, so
when Bootstrap supplies the *same* key `"old1"` already stored (i.e. no
new key), the executor still retries, and here the retried call returns
200 — the call succeeds instead of failing with `AuthError`. -/
theorem C2_counterexample :
    healKey envSameKey = some "old1"
    ∧ (apiFetch "/api/companies" {} (some "old1") envSameKey).result
        = ApiResult.ok (some { data := "companies" })
    ∧ (apiFetch "/api/companies" {} (some "old1") envSameKey).requests.length = 2 := by
  decide

/-- C2 (amended): for every request whose first response is 401 and for
which the heal yields no usable key at all (info fetch rejected, non-2xx,
unparseable, or a falsy `api_key`), the call fails with the auth error —
the thrown error of the 401 response — the stored key is unchanged, and
the underlying request is attempted exactly once (hence at most twice). -/
theorem C2_auth_error_when_no_key (path : String) (opts : FetchOptions)
    (stored : Option String) (env : ApiEnv) (r1 : Response)
    (h1 : env.firstResp = some r1) (h2 : r1.status = 401)
    (h3 : healKey env = none) :
    (apiFetch path opts stored env).requests.length = 1
    ∧ (apiFetch path opts stored env).result = ApiResult.httpError 401 (errMsg r1)
    ∧ (apiFetch path opts stored env).stored = stored := by
  unfold apiFetch
  rw [h1]
  simp only [h2, if_pos rfl, h3]
  refine ⟨rfl, ?_, rfl⟩
  simp [finishResponse, respOk, h2]

/-- Witness for C2: a 401 whose heal fetch rejects (e.g. times out). -/
theorem C2_auth_error_when_no_key_witness :
    (apiFetch "/api/companies" {} (some "old1")
      { firstResp := some ⟨401, none, none⟩ }).result
      = ApiResult.httpError 401 (errMsg ⟨401, none, none⟩) :=
  (C2_auth_error_when_no_key "/api/companies" {} (some "old1")
    { firstResp := some ⟨401, none, none⟩ } ⟨401, none, none⟩
    rfl rfl (by decide)).2.1

/-- C7: every non-2xx, non-401 first response is surfaced as the thrown
error carrying that response's status and the best-effort message
(`body.detail || body.message || "HTTP <status>"`); when the body does
not parse the message is exactly `"HTTP <status>"`. -/
theorem C7_server_error_surfaced (path : String) (opts : FetchOptions)
    (stored : Option String) (env : ApiEnv) (r1 : Response)
    (h1 : env.firstResp = some r1) (h2 : respOk r1 = false)
    (h3 : r1.status ≠ 401) :
    (apiFetch path opts stored env).result = ApiResult.httpError r1.status (errMsg r1)
    ∧ (r1.jsonBody = none → errMsg r1 = "HTTP " ++ toString r1.status) := by
  constructor
  · unfold apiFetch
    rw [h1]
    simp only [if_neg h3]
    simp [finishResponse, h2]
  · intro hb
    simp [errMsg, hb]

/-- Witness for C7: a 503 with an unparseable body yields exactly
`HTTP 503`. -/
theorem C7_server_error_surfaced_witness :
    (apiFetch "/api/companies" {} (some "old1")
      { firstResp := some ⟨503, none, none⟩ }).result
      = ApiResult.httpError 503 "HTTP 503" := by
  have h := C7_server_error_surfaced "/api/companies" {} (some "old1")
    { firstResp := some ⟨503, none, none⟩ } ⟨503, none, none⟩
    rfl (by decide) (by decide)
  rw [h.1, h.2 rfl]
  decide

/-- C10: the claim as stated is false: when the caller passes a
`headers` object in `options`, the spread `{ ...defaults, ...options }`
replaces the default headers wholesale, and the request carries no
`X-API-Key` header at all even though no key is stored. -/
theorem C10_counterexample :
    (apiFetch "/api/companies" { headers := some [("Accept", "text/csv")] }
      none { firstResp := some ⟨200, some {}, none⟩ }).requests.map
        (fun r => hGet r.headers "X-API-Key")
      = [none] := by
  decide

/-- The first request of every `apiFetch` call is for the given path
with the headers built from the stored key. -/
theorem apiFetch_first_request (path : String) (opts : FetchOptions)
    (stored : Option String) (env : ApiEnv) :
    (apiFetch path opts stored env).requests.head? =
      some ⟨path, opts.method, opts.body, sentHeaders (stored.getD "") opts⟩ := by
  unfold apiFetch
  cases env.firstResp with
  | none => rfl
  | some r1 =>
      by_cases h4 : r1.status = 401
      · simp only [h4, if_pos rfl]
        cases healKey env with
        | none => rfl
        | some k => cases env.retryResp <;> rfl
      · simp only [if_neg h4]
        rfl

/-- C10 (amended): for every request issued with no stored API key and
no caller-supplied `headers` object, the request carries the
`X-API-Key` header with the empty string as its value. -/
theorem C10_default_header_empty_key (path : String) (opts : FetchOptions)
    (env : ApiEnv) (h : opts.headers = none) :
    ((apiFetch path opts none env).requests.head?).map
        (fun r => hGet r.headers "X-API-Key")
      = some (some "") := by
  rw [apiFetch_first_request]
  simp [sentHeaders, h, defaultHeaders, hMerge, hGet, List.find?]

/-- Witness for C10: a plain GET with nothing stored sends
`X-API-Key:` with the empty value. -/
theorem C10_default_header_empty_key_witness :
    ((apiFetch "/api/companies" {} none
        { firstResp := some ⟨200, some {}, none⟩ }).requests.head?).map
        (fun r => hGet r.headers "X-API-Key")
      = some (some "") :=
  C10_default_header_empty_key "/api/companies" {}
    { firstResp := some ⟨200, some {}, none⟩ } rfl

/-- C4: on the same environment — a 401 that the heal could recover —
`apiFetch` heals and succeeds (two attempts) while `apiFetchWithCount`
performs a single attempt and throws `Invalid API key` without ever
invoking the bootstrap, contradicting its own comment "Like apiFetch
but also returns the X-Total-Count header value". -/
theorem C4_count_variant_skips_heal :
    (apiFetch "/api/orders" {} (some "old1") envC4).result
      = ApiResult.ok (some { data := "orders" })
    ∧ (apiFetch "/api/orders" {} (some "old1") envC4).requests.length = 2
    ∧ (apiFetchWithCount "/api/orders" {} (some "old1") envC4.firstResp).2
        = CountResult.httpError 401 "Invalid API key"
    ∧ (apiFetchWithCount "/api/orders" {} (some "old1") envC4.firstResp).1.length = 1 := by
  decide

/-! ### Connector theorems -/

theorem connectSSE_wf {s : SSEState} (h : connWellFormed s) :
    connWellFormed (connectSSE s) := by
  unfold connWellFormed at h ⊢
  unfold connectSSE
  cases hv : s.sseVar with
  | none => rw [hv] at h; simp [hv, h]
  | some v => rw [hv] at h; simp [hv, h]

theorem connWellFormed_scope {s : SSEState} (sc : Option Nat)
    (h : connWellFormed s) : connWellFormed { s with scope := sc } := h

theorem connWellFormed_pending {s : SSEState} (p : List SSETimer)
    (h : connWellFormed s) : connWellFormed { s with pending := p } := h

theorem onError_wf {s : SSEState} {c : SSEConn} (hc : s.sseVar = some c)
    (h : connWellFormed s) : connWellFormed (onError s) := by
  unfold connWellFormed at h ⊢
  rw [hc] at h
  simp [onError, hc, h]

theorem sseStep_wf {s : SSEState} (e : SSEEvent) (h : connWellFormed s) :
    connWellFormed (sseStep s e) := by
  cases e with
  | connect => exact connectSSE_wf h
  | companyChanged sc => exact connectSSE_wf (connWellFormed_scope sc h)
  | connected c =>
      simp only [sseStep]
      split
      · exact h
      · exact h
  | transportError c =>
      simp only [sseStep]
      split
      · next hc => exact onError_wf hc h
      · exact h
  | timerFire t =>
      simp only [sseStep]
      split
      · exact connectSSE_wf (connWellFormed_pending _ h)
      · exact h

theorem sseRun_wf (scope0 : Option Nat) (es : List SSEEvent) :
    connWellFormed (sseRun scope0 es) := by
  unfold sseRun
  have H : ∀ (l : List SSEEvent) (s : SSEState),
      connWellFormed s → connWellFormed (l.foldl sseStep s) := by
    intro l
    induction l with
    | nil => intro s h; exact h
    | cons e l ih => intro s h; exact ih _ (sseStep_wf e h)
  exact H es _ rfl

/-- C6: in every state the connector can reach — by any interleaving of
page load, scope changes, stream handler events and retry-timer
firings — at most one stream connection is open, because every path
that opens a connection first closes the one `_sse` holds. -/
theorem C6_at_most_one_connection (scope0 : Option Nat) (es : List SSEEvent) :
    (sseRun scope0 es).openConns.length ≤ 1 := by
  have h := sseRun_wf scope0 es
  unfold connWellFormed at h
  cases hv : (sseRun scope0 es).sseVar with
  | none => rw [hv] at h; simp [h]
  | some v => rw [hv] at h; simp [h]

/-- C5: on every transport failure of the live stream the connector
shows `Disconnected`, tears the stream down, arms exactly one retry
timer of exactly 5000 ms (appended to whatever was pending — no sooner
firing, no backoff growth), and that timer's firing reopens a
connection with the connector's current scope (the same scope when no
scope change intervened) showing `Connecting...`.  The statement holds
of every state, so the cycle repeats indefinitely with no retry limit. -/
theorem C5_error_arms_single_retry (s : SSEState) (c : SSEConn)
    (h : s.sseVar = some c) :
    (sseStep s (.transportError c)).statusText = "Disconnected"
    ∧ (sseStep s (.transportError c)).statusState = "error"
    ∧ (sseStep s (.transportError c)).sseVar = none
    ∧ (sseStep s (.transportError c)).openConns
        = s.openConns.filter (fun c2 => c2.id ≠ c.id)
    ∧ (sseStep s (.transportError c)).pending = s.pending ++ [⟨s.nextId, 5000⟩]
    ∧ (sseStep s (.transportError c)).retryVar = some s.nextId
    ∧ (sseStep s (.transportError c)).scope = s.scope
    ∧ (sseStep (sseStep s (.transportError c)) (.timerFire ⟨s.nextId, 5000⟩)).sseVar
        = some ⟨s.nextId + 1, s.scope⟩
    ∧ (sseStep (sseStep s (.transportError c)) (.timerFire ⟨s.nextId, 5000⟩)).statusText
        = "Connecting..." := by
  simp only [sseStep]
  rw [if_pos h]
  refine ⟨?_, ?_, ?_, ?_, ?_, ?_, ?_, ?_, ?_⟩ <;>
    simp [onError, connectSSE, h, RETRY_DELAY_MS]

/-- Witness for C5: the stream opened on page load drops. -/
theorem C5_error_arms_single_retry_witness :
    (sseStep (sseRun none [.connect]) (.transportError ⟨0, none⟩)).statusText
      = "Disconnected"
    ∧ (sseStep (sseRun none [.connect]) (.transportError ⟨0, none⟩)).pending
      = (sseRun none [.connect]).pending ++ [⟨(sseRun none [.connect]).nextId, 5000⟩] :=
  ⟨(C5_error_arms_single_retry (sseRun none [.connect]) ⟨0, none⟩ (by decide)).1,
   (C5_error_arms_single_retry (sseRun none [.connect]) ⟨0, none⟩ (by decide)).2.2.2.2.1⟩

/-- C3: the claim as stated is false: `connectSSE` never touches
`_retryTimer`, so a scope change made while a retry timer is pending
(connector in `Error`) starts the fresh connection for the new scope
with the old timer still live; if the new stream then also fails, a
second timer is armed while the first is still pending — two live retry
timers at once.  Trace: load connects (stream id 0), it drops (timer
id 1 armed), the scope changes to company 7 (stream id 2 opens, timer 1
still pending), stream 2 drops (timer 3 armed alongside timer 1). -/
theorem C3_counterexample :
    (sseRun none [.connect, .transportError ⟨0, none⟩,
        .companyChanged (some 7)]).pending = [⟨1, 5000⟩]
    ∧ (sseRun none [.connect, .transportError ⟨0, none⟩,
        .companyChanged (some 7)]).sseVar = some ⟨2, some 7⟩
    ∧ (sseRun none [.connect, .transportError ⟨0, none⟩, .companyChanged (some 7),
        .transportError ⟨2, some 7⟩]).pending = [⟨1, 5000⟩, ⟨3, 5000⟩]
    ∧ (sseRun none [.connect, .transportError ⟨0, none⟩, .companyChanged (some 7),
        .transportError ⟨2, some 7⟩]).pending.length = 2 := by
  decide

/-- C3 (amended): a scope change immediately starts a fresh connection
attempt for the new scope but does not cancel a pending retry timer;
the timer referenced by `_retryTimer` is cleared only when the new
connection delivers its `connected` event (so until then it stays live,
and two live timers are possible). -/
theorem C3_scope_change_keeps_timer (s : SSEState) (sc : Option Nat) :
    (sseStep s (.companyChanged sc)).pending = s.pending
    ∧ (sseStep s (.companyChanged sc)).scope = sc
    ∧ (sseStep s (.companyChanged sc)).sseVar = some ⟨s.nextId, sc⟩
    ∧ (sseStep s (.companyChanged sc)).retryVar = s.retryVar
    ∧ (sseStep (sseStep s (.companyChanged sc)) (.connected ⟨s.nextId, sc⟩)).pending
        = (match s.retryVar with
           | some t => s.pending.filter (fun tm => tm.id ≠ t)
           | none => s.pending) := by
  simp only [sseStep]
  refine ⟨?_, ?_, ?_, ?_, ?_⟩ <;>
    cases hv : s.sseVar <;>
      simp [connectSSE, onConnected, hv]

/-! ### Bootstrap and credential-store theorems -/

/-- C8: the claim as stated is false: when the info call succeeds but
returns `api_key = ""` — which differs from the stored `"old1"` — the
guard `info.api_key && …` is falsy, so the store is not updated and no
restart is signalled, contrary to "if the returned api_key differs from
the stored key, the store is updated … and a session restart is
signaled". -/
theorem C8_counterexample :
    respOk ⟨200, some { api_key := "" }, none⟩ = true
    ∧ ("" : String) ≠ "old1"
    ∧ bootstrap (some "old1") (some ⟨200, some { api_key := "" }, none⟩)
        = (some "old1", false) := by
  decide

/-- C8 (amended): a failed info request (rejected fetch / timeout,
non-2xx, or unparseable body) leaves the stored credential unchanged
and signals no restart; a successful one whose `api_key` is non-empty
and differs from the stored key (including when no key is stored)
stores that key and signals the session restart. -/
theorem C8_bootstrap_update_or_noop (stored : Option String) (resp : Option Response) :
    (resp = none → bootstrap stored resp = (stored, false))
    ∧ (∀ r : Response, resp = some r → respOk r = false →
        bootstrap stored resp = (stored, false))
    ∧ (∀ r : Response, resp = some r → respOk r = true → r.jsonBody = none →
        bootstrap stored resp = (stored, false))
    ∧ (∀ (r : Response) (b : Body), resp = some r → respOk r = true →
        r.jsonBody = some b → b.api_key ≠ "" → some b.api_key ≠ stored →
        bootstrap stored resp = (some b.api_key, true)) := by
  refine ⟨?_, ?_, ?_, ?_⟩
  · intro h; rw [h]; rfl
  · intro r h hok
    rw [h]
    simp [bootstrap, hok]
  · intro r h hok hb
    rw [h]
    simp [bootstrap, hok, hb]
  · intro r b h hok hb hkey hne
    rw [h]
    simp [bootstrap, hok, hb, hkey, hne]

/-- Witness for C8: the spec scenario — no key stored, info returns
`{api_key:"abc123"}`, the store is set and a restart signalled. -/
theorem C8_bootstrap_update_or_noop_witness :
    bootstrap none (some ⟨200, some { api_key := "abc123" }, none⟩)
      = (some "abc123", true) :=
  (C8_bootstrap_update_or_noop none
      (some ⟨200, some { api_key := "abc123" }, none⟩)).2.2.2
    ⟨200, some { api_key := "abc123" }, none⟩ { api_key := "abc123" }
    rfl (by decide) rfl (by decide) (by decide)

/-- C9: the claim as stated is false: the save operation trims both
fields and strips one trailing slash from the address, so saving the
accepted pair `("http://localhost:8001/", " k1 ")` and reading the
credential back yields `("http://localhost:8001", "k1")`, not the pair
that was passed. -/
theorem C9_counterexample :
    (saveConnection {} "http://localhost:8001/" " k1 ").2 = true
    ∧ (loadAppInfo (saveConnection {} "http://localhost:8001/" " k1 ").1
        "http://localhost:8001" none).1
        = ("http://localhost:8001", "k1")
    ∧ ("http://localhost:8001", "k1") ≠ ("http://localhost:8001/", " k1 ") := by
  decide

/-- C9 (amended): for every accepted address and key (non-empty after
trimming and slash-stripping), the save succeeds and a subsequent read
returns exactly the trimmed, trailing-slash-stripped address together
with the trimmed key — hence exactly the pair passed whenever that pair
was already in this normal form. -/
theorem C9_roundtrip_normalized (st : Store) (a k w : String) (info : Option Body)
    (ha : stripTrailingSlash (jsTrim a) ≠ "") (hk : jsTrim k ≠ "") :
    (saveConnection st a k).2 = true
    ∧ (loadAppInfo (saveConnection st a k).1 w info).1
        = (stripTrailingSlash (jsTrim a), jsTrim k) := by
  unfold saveConnection
  rw [if_neg ha, if_neg hk]
  refine ⟨rfl, ?_⟩
  unfold loadAppInfo
  cases info with
  | none => simp [jsOr, ha, hk]
  | some b => simp [jsOr, ha, hk]

/-- Witness for C9: an already-normalized pair round-trips exactly. -/
theorem C9_roundtrip_normalized_witness :
    (loadAppInfo (saveConnection {} "http://tally.local:8001" "secret").1 "" none).1
      = (stripTrailingSlash (jsTrim "http://tally.local:8001"), jsTrim "secret") :=
  (C9_roundtrip_normalized {} "http://tally.local:8001" "secret" "" none
    (by decide) (by decide)).2

end TallySync
